import Mathlib

/-!
Shallow embedding of the blockd lock server core (the ReaderWriterLock
revision of the source). Sockets are identified by natural numbers;
JavaScript object identity of queued LockRequest objects is modelled by a
request id (rid) drawn from a counter. Outbound socket writes are
best-effort: a write oracle (a list of Booleans, exhausted meaning success)
supplies the result writeSafe would return. A JavaScript runtime error
raised inside a handler is modelled as an Except error: the exception
escapes the socket callback, so the process dies and no later state is
observable.
-/

namespace Blockd

/-- A JavaScript runtime error escaping a handler. referenceError models the
use of an undeclared identifier, typeError a property access on null or a
call of a non-function. -/
inductive JsErr where
  | referenceError
  | typeError
deriving DecidableEq, Repr

/-- Lock mode, the protocol field values R and W. -/
inductive Mode where
  | R
  | W
deriving DecidableEq, Repr

/-- The outbound status values produced by the embedded fragment. -/
inductive Status where
  | LOCKED
  | LOCKPENDING
  | RELEASED
  | ACQUIRETIMEOUT
  | NOLOCKTORELEASE
  | NOLOCKSTORELEASEALL
deriving DecidableEq, Repr

/-- One attempted outbound frame. dest is the socket the write was aimed at;
dest = none models the writeJsonSafe(msg) call in release that passes the
message object where the socket parameter belongs, so the frame reaches no
connection. delivered is the Boolean writeSafe returned for the attempt. -/
structure Msg where
  dest : Option Nat
  delivered : Bool
  status : Status
  lockId : Option String
  mode : Option Mode
  nonce : List String
deriving DecidableEq, Repr

/-- Draw the next socket-write result from the oracle; an exhausted oracle
means every remaining write succeeds. -/
def popOracle : List Bool → Bool × List Bool
  | [] => (true, [])
  | b :: rest => (b, rest)

/-- writeJsonSafe as observed by the model. Aimed at a socket it consumes one
oracle entry; aimed at a non-socket (the missing-argument call) the inner
socket.write throws, writeSafe swallows the error and returns false. -/
def emit (dest : Option Nat) (status : Status) (lockId : Option String)
    (mode : Option Mode) (nonce : List String) (o : List Bool) :
    Msg × Bool × List Bool :=
  match dest with
  | none => (⟨none, false, status, lockId, mode, nonce⟩, false, o)
  | some d =>
    let r := popOracle o
    (⟨some d, r.1, status, lockId, mode, nonce⟩, r.1, r.2)

/-- pushIfDefined(array, obj): append obj when it is neither undefined nor
null. -/
def pushIfDefined (xs : List String) (v : Option String) : List String :=
  xs ++ v.toList

/-- Array.prototype.removeIf called without an onRemove argument: remove every
item matching the predicate. -/
def removeIfAll (p : α → Bool) (xs : List α) : List α :=
  xs.filter (fun a => !p a)

/-- Array.prototype.findAndRemoveIf: removeIf with an onRemove that records
the removed item and stops, so exactly the first match is removed and
returned. -/
def findAndRemoveIf (p : α → Bool) : List α → Option α × List α
  | [] => (none, [])
  | x :: xs =>
    if p x then (some x, xs)
    else
      let r := findAndRemoveIf p xs
      (r.1, x :: r.2)

/-- LockRequest(socket, args): keeps the socket, args.lockId and args.nonce.
rid stands for the JavaScript object identity that indexOf compares. -/
structure LockRequest where
  rid : Nat
  socket : Nat
  lockId : Option String
  nonce : Option String
deriving DecidableEq, Repr

/-- The fields of an ACQUIRE command object that the lock entity reads. -/
structure AcquireArgs where
  lockId : String
  nonce : Option String
  timeout : Option Nat
deriving DecidableEq, Repr

/-- new LockRequest(socket, arguments) with the ACQUIRE argument object. -/
def LockRequest.ofArgs (rid socket : Nat) (args : AcquireArgs) : LockRequest :=
  ⟨rid, socket, some args.lockId, args.nonce⟩

/-- new LockRequest(socket, lockId) as called from
LockRequestQueue.createRequest: the plain lockId string stands where the
constructor expects the argument object, so reading args.lockId and
args.nonce off the string yields undefined for both. -/
def LockRequest.ofLockIdString (rid socket : Nat) (_lockIdString : String) : LockRequest :=
  ⟨rid, socket, none, none⟩

/-- ReaderWriterLock state. The two LockRequestQueue members are inlined as
their request arrays (the queue object is a thin wrapper around one array).
greedyReaders is fixed at construction from settings.defaultReaderGreed;
settings.json is configuration outside src, so the flag is a parameter. -/
structure ReaderWriterLock where
  lockId : String
  greedyReaders : Bool
  writer : Option LockRequest
  writerQueue : List LockRequest
  readers : List LockRequest
  readerQueue : List LockRequest
deriving DecidableEq, Repr

namespace ReaderWriterLock

/-- new ReaderWriterLock(lockId) with greedyReaders defaulted from settings. -/
def init (greed : Bool) (lockId : String) : ReaderWriterLock :=
  ⟨lockId, greed, none, [], [], []⟩

def isWriteLocked (e : ReaderWriterLock) : Bool :=
  e.writer.isSome

def isReadLocked (e : ReaderWriterLock) : Bool :=
  !e.readers.isEmpty

/-- readerQueue.hasRequests(). -/
def hasReadRequests (e : ReaderWriterLock) : Bool :=
  !e.readerQueue.isEmpty

/-- writerQueue.hasRequests(). -/
def hasWriteRequests (e : ReaderWriterLock) : Bool :=
  !e.writerQueue.isEmpty

def isReadAvailable (e : ReaderWriterLock) : Bool :=
  if e.greedyReaders then !e.isWriteLocked
  else !e.isWriteLocked && !e.hasWriteRequests

def isAbandoned (e : ReaderWriterLock) : Bool :=
  !e.isWriteLocked && !e.isReadLocked && !e.hasReadRequests && !e.hasWriteRequests

def isSocketReader (e : ReaderWriterLock) (socket : Nat) : Bool :=
  e.readers.any (fun r => r.socket == socket)

/-- isWriteAvailable(socket); none models the call sites that pass no socket
(undefined is falsy), which skip the upgrade clause. -/
def isWriteAvailable (e : ReaderWriterLock) (socket : Option Nat) : Bool :=
  match socket with
  | some s =>
    if !e.isWriteLocked && e.readers.length == 1 && e.isSocketReader s then true
    else !(e.isWriteLocked || e.isReadLocked)
  | none => !(e.isWriteLocked || e.isReadLocked)

/-- this.writer && this.writer.socket === socket. -/
def writerIs (e : ReaderWriterLock) (socket : Nat) : Bool :=
  match e.writer with
  | some w => w.socket == socket
  | none => false

/-- lockRead: write LOCKED R to the request socket (result ignored), then push
the request onto readers. -/
def lockRead (e : ReaderWriterLock) (req : LockRequest) (o : List Bool) :
    ReaderWriterLock × List Msg × List Bool :=
  let r := emit (some req.socket) .LOCKED (some e.lockId) (some .R)
    (pushIfDefined [] req.nonce) o
  ({ e with readers := e.readers ++ [req] }, [r.1], r.2.2)

/-- lockWrite: drop the requester from readers (removeIf on socket equality),
write LOCKED W, and set writer only when the write reported success. -/
def lockWrite (e : ReaderWriterLock) (req : LockRequest) (o : List Bool) :
    ReaderWriterLock × List Msg × List Bool :=
  let e1 := { e with readers := removeIfAll (fun r => r.socket == req.socket) e.readers }
  let r := emit (some req.socket) .LOCKED (some e1.lockId) (some .W)
    (pushIfDefined [] req.nonce) o
  (if r.2.1 then { e1 with writer := some req } else e1, [r.1], r.2.2)

/-- acquireRead(socket, arguments). The already-held branch reads
request.nonce with no request declared in any enclosing scope
(ReferenceError before anything is written); the disjunct
this.writer === socket compares a LockRequest object against a socket and is
never true, so a current writer falls through. The queueing branch, after
emitting LOCKPENDING R, passes the undeclared name timeout to createRequest
(ReferenceError), so the request is never queued; the crash loses the whole
handler, hence the error result. -/
def acquireRead (e : ReaderWriterLock) (socket : Nat) (args : AcquireArgs)
    (nextRid : Nat) (o : List Bool) :
    Except JsErr (ReaderWriterLock × Nat × List Msg × List Bool) :=
  if e.isSocketReader socket then .error .referenceError
  else if e.isReadAvailable then
    let r := lockRead e (LockRequest.ofArgs nextRid socket args) o
    .ok (r.1, nextRid + 1, r.2.1, r.2.2)
  else .error .referenceError

/-- acquireWrite(socket, args): idempotent LOCKED W when this socket is the
current writer; immediate lockWrite when isWriteAvailable(socket); otherwise
LOCKPENDING W and createRequest, which hands the plain lockId string to the
LockRequest constructor in place of the argument object. args.timeout only
parameterizes the timer delay, which the model expresses as explicit timer
events. -/
def acquireWrite (e : ReaderWriterLock) (socket : Nat) (args : AcquireArgs)
    (nextRid : Nat) (o : List Bool) :
    ReaderWriterLock × Nat × List Msg × List Bool :=
  if e.writerIs socket then
    let r := emit (some socket) .LOCKED (some e.lockId) (some .W)
      (pushIfDefined [] args.nonce) o
    (e, nextRid, [r.1], r.2.2)
  else if e.isWriteAvailable (some socket) then
    let r := lockWrite e (LockRequest.ofArgs nextRid socket args) o
    (r.1, nextRid + 1, r.2.1, r.2.2)
  else
    let r := emit (some socket) .LOCKPENDING (some e.lockId) (some .W)
      (pushIfDefined [] args.nonce) o
    ({ e with writerQueue := e.writerQueue ++ [LockRequest.ofLockIdString nextRid socket e.lockId] },
      nextRid + 1, [r.1], r.2.2)

/-- One iteration step of the abdicateLock reader loop, with a fuel bound.
The JavaScript loop runs while readerQueue.hasRequests() and
isReadAvailable(); each iteration removes the queue head (findPendingRequest
is findAndRemoveIf with an always-true predicate) and lockRead never adds to
either queue, so the initial queue length bounds the iteration count and
fuel exhaustion coincides with the loop guard turning false. -/
def abdicateReadLoop : Nat → ReaderWriterLock → List Bool →
    ReaderWriterLock × List Msg × List Bool
  | 0, e, o => (e, [], o)
  | fuel + 1, e, o =>
    if e.hasReadRequests && e.isReadAvailable then
      match e.readerQueue with
      | [] => (e, [], o)
      | nextReader :: rest =>
        let r1 := lockRead { e with readerQueue := rest } nextReader o
        let r2 := abdicateReadLoop fuel r1.1 r1.2.2
        (r2.1, r1.2.1 ++ r2.2.1, r2.2.2)
    else (e, [], o)

/-- One iteration step of the abdicateLock writer loop, with a fuel bound.
The loop runs while writerQueue.hasRequests() and isWriteAvailable() (no
socket passed); each iteration dequeues the head and lockWrite never touches
the queues, so the initial queue length bounds the iterations. -/
def abdicateWriteLoop : Nat → ReaderWriterLock → List Bool →
    ReaderWriterLock × List Msg × List Bool
  | 0, e, o => (e, [], o)
  | fuel + 1, e, o =>
    if e.hasWriteRequests && e.isWriteAvailable none then
      match e.writerQueue with
      | [] => (e, [], o)
      | nextWriter :: rest =>
        let r1 := lockWrite { e with writerQueue := rest } nextWriter o
        let r2 := abdicateWriteLoop fuel r1.1 r1.2.2
        (r2.1, r1.2.1 ++ r2.2.1, r2.2.2)
    else (e, [], o)

/-- abdicateLock: burn through the reader queue, then the writer queue. -/
def abdicateLock (e : ReaderWriterLock) (o : List Bool) :
    ReaderWriterLock × List Msg × List Bool :=
  let r1 := abdicateReadLoop e.readerQueue.length e o
  let r2 := abdicateWriteLoop r1.1.writerQueue.length r1.1 r1.2.2
  (r2.1, r1.2.1 ++ r2.2.1, r2.2.2)

/-- release(socket, nonce, reportNoLocks). The Boolean result is the truthy
value the caller observes (the early NOLOCKTORELEASE return yields
undefined, which is falsy). The writer branch answers to the writer request
socket; the reader branch runs findAndRemoveIf with a predicate whose body
item.socket === socket lacks a return statement, so the predicate yields
undefined (falsy) and nothing is removed, and then addresses its RELEASED R
frame to this.writer.socket, a TypeError when no writer is present. The
missing-lock report calls writeJsonSafe with the message in the socket
position. -/
def entityRelease (e : ReaderWriterLock) (socket : Nat) (nonce : Option String)
    (reportNoLocksArg : Option Bool) (o : List Bool) :
    Except JsErr (ReaderWriterLock × Bool × List Msg × List Bool) :=
  let reportNoLocks := reportNoLocksArg.getD true
  let w1 :=
    match e.writer with
    | some w =>
      if w.socket == socket then
        let r := emit (some w.socket) .RELEASED (some e.lockId) (some .W)
          (pushIfDefined (pushIfDefined [] w.nonce) nonce) o
        ({ e with writer := none }, true, [r.1], r.2.2)
      else (e, false, ([] : List Msg), o)
    | none => (e, false, ([] : List Msg), o)
  let e1 := w1.1
  let released1 := w1.2.1
  let ms1 := w1.2.2.1
  let o1 := w1.2.2.2
  if e1.isSocketReader socket then
    let fr := findAndRemoveIf (fun _ => false) e1.readers
    let e2 := { e1 with readers := fr.2 }
    match e2.writer with
    | none => .error .typeError
    | some w =>
      let r := emit (some w.socket) .RELEASED (some e2.lockId) (some .R)
        (pushIfDefined (pushIfDefined [] (fr.1.bind (fun q => q.nonce))) nonce) o1
      let ab := abdicateLock e2 r.2.2
      .ok (ab.1, true, ms1 ++ [r.1] ++ ab.2.1, ab.2.2)
  else
    if !released1 && reportNoLocks then
      let r := emit none .NOLOCKTORELEASE (some e1.lockId) none (pushIfDefined [] nonce) o1
      .ok (e1, false, ms1 ++ [r.1], r.2.2)
    else
      let ab := abdicateLock e1 o1
      .ok (ab.1, released1, ms1 ++ ab.2.1, ab.2.2)

/-- The setTimeout wakeup armed by createRequest for a writer-queue request.
removeRequest uses indexOf, i.e. object identity, modelled by the rid. When
the request is gone the wakeup does nothing. When it is still queued it is
removed; then the closure tests lock.isWriteAvailable() and on success calls
this.lockWrite, but this inside the plain callback is not the lock entity,
so the re-grant attempt is a TypeError; otherwise request.timeout() emits
ACQUIRETIMEOUT built from the request fields (whose lockId and nonce are
undefined, lost at createRequest). -/
def timerFireWrite (e : ReaderWriterLock) (rid : Nat) (o : List Bool) :
    Except JsErr (ReaderWriterLock × List Msg × List Bool) :=
  let fr := findAndRemoveIf (fun q => q.rid == rid) e.writerQueue
  match fr.1 with
  | none => .ok (e, [], o)
  | some req =>
    let e1 := { e with writerQueue := fr.2 }
    if e1.isWriteAvailable none then .error .typeError
    else
      let r := emit (some req.socket) .ACQUIRETIMEOUT req.lockId none
        (pushIfDefined [] req.nonce) o
      .ok (e1, [r.1], r.2.2)

/-- The setTimeout wakeup for a reader-queue request; same shape as the
writer one, testing lock.isReadAvailable() and crashing on this.lockRead in
the available case. -/
def timerFireRead (e : ReaderWriterLock) (rid : Nat) (o : List Bool) :
    Except JsErr (ReaderWriterLock × List Msg × List Bool) :=
  let fr := findAndRemoveIf (fun q => q.rid == rid) e.readerQueue
  match fr.1 with
  | none => .ok (e, [], o)
  | some req =>
    let e1 := { e with readerQueue := fr.2 }
    if e1.isReadAvailable then .error .typeError
    else
      let r := emit (some req.socket) .ACQUIRETIMEOUT req.lockId none
        (pushIfDefined [] req.nonce) o
      .ok (e1, [r.1], r.2.2)

end ReaderWriterLock

open ReaderWriterLock

/-- State of one lock entity together with the rid counter, the pending
write oracle and the accumulated outbound trace. -/
structure SysState where
  entity : ReaderWriterLock
  nextRid : Nat
  oracle : List Bool
  trace : List Msg
deriving DecidableEq, Repr

/-- The events that reach one lock entity through the single serialization
domain: the two acquire commands, an explicit RELEASE, the per-entity effect
of a disconnect (LockCollection.releaseAll calls release(socket, undefined,
false) on every entity), and the deadline wakeups of queued requests. -/
inductive Ev where
  | acqR (socket : Nat) (args : AcquireArgs)
  | acqW (socket : Nat) (args : AcquireArgs)
  | rel (socket : Nat) (nonce : Option String)
  | disc (socket : Nat)
  | timerR (rid : Nat)
  | timerW (rid : Nat)
deriving DecidableEq, Repr

/-- Process one event against one entity; none means the handler raised and
the process died, so no later state is observable. -/
def step (s : SysState) : Ev → Option SysState
  | .acqR socket args =>
    match acquireRead s.entity socket args s.nextRid s.oracle with
    | .error _ => none
    | .ok (e, n, ms, o) => some ⟨e, n, o, s.trace ++ ms⟩
  | .acqW socket args =>
    match acquireWrite s.entity socket args s.nextRid s.oracle with
    | (e, n, ms, o) => some ⟨e, n, o, s.trace ++ ms⟩
  | .rel socket nonce =>
    match entityRelease s.entity socket nonce none s.oracle with
    | .error _ => none
    | .ok (e, _, ms, o) => some ⟨e, s.nextRid, o, s.trace ++ ms⟩
  | .disc socket =>
    match entityRelease s.entity socket none (some false) s.oracle with
    | .error _ => none
    | .ok (e, _, ms, o) => some ⟨e, s.nextRid, o, s.trace ++ ms⟩
  | .timerR rid =>
    match timerFireRead s.entity rid s.oracle with
    | .error _ => none
    | .ok (e, ms, o) => some ⟨e, s.nextRid, o, s.trace ++ ms⟩
  | .timerW rid =>
    match timerFireWrite s.entity rid s.oracle with
    | .error _ => none
    | .ok (e, ms, o) => some ⟨e, s.nextRid, o, s.trace ++ ms⟩

/-- The observable states after each processed event; a crash truncates the
run. -/
def runStates (s : SysState) : List Ev → List SysState
  | [] => []
  | ev :: evs =>
    match step s ev with
    | none => []
    | some s2 => s2 :: runStates s2 evs

/-- LockCollection: the registry mapping lockId to its ReaderWriterLock. A
plain object keyed by strings enumerates in insertion order, modelled by an
association list. -/
structure LockCollection where
  locks : List (String × ReaderWriterLock)
deriving DecidableEq, Repr

namespace LockCollection

def lookup (c : LockCollection) (lockId : String) : Option ReaderWriterLock :=
  (c.locks.find? (fun p => p.1 == lockId)).map (fun p => p.2)

/-- getLock: lookup-or-create; new ReaderWriterLock(lockId), appended in
property insertion order. -/
def getLock (greed : Bool) (c : LockCollection) (lockId : String) :
    LockCollection × ReaderWriterLock :=
  match c.lookup lockId with
  | some e => (c, e)
  | none =>
    let e := ReaderWriterLock.init greed lockId
    (⟨c.locks ++ [(lockId, e)]⟩, e)

/-- Store the entity (mutated in place in JavaScript) back under its id. -/
def setLock (c : LockCollection) (lockId : String) (e : ReaderWriterLock) :
    LockCollection :=
  ⟨c.locks.map (fun p => if p.1 == lockId then (p.1, e) else p)⟩

/-- delete this.locks[lockId]. -/
def removeLock (c : LockCollection) (lockId : String) : LockCollection :=
  ⟨c.locks.filter (fun p => !(p.1 == lockId))⟩

/-- cleanupLock(lock): delete the entity when it is abandoned. -/
def cleanupLock (c : LockCollection) (e : ReaderWriterLock) : LockCollection :=
  if e.isAbandoned then c.removeLock e.lockId else c

/-- LockCollection.acquireRead: getLock then delegate. -/
def acquireRead (greed : Bool) (c : LockCollection) (socket : Nat)
    (args : AcquireArgs) (nextRid : Nat) (o : List Bool) :
    Except JsErr (LockCollection × Nat × List Msg × List Bool) :=
  let g := getLock greed c args.lockId
  match ReaderWriterLock.acquireRead g.2 socket args nextRid o with
  | .error err => .error err
  | .ok (e, n, ms, o2) => .ok (setLock g.1 args.lockId e, n, ms, o2)

/-- LockCollection.acquireWrite: getLock then delegate. No cleanup runs on
this path. -/
def acquireWrite (greed : Bool) (c : LockCollection) (socket : Nat)
    (args : AcquireArgs) (nextRid : Nat) (o : List Bool) :
    LockCollection × Nat × List Msg × List Bool :=
  let g := getLock greed c args.lockId
  let r := ReaderWriterLock.acquireWrite g.2 socket args nextRid o
  (setLock g.1 args.lockId r.1, r.2.1, r.2.2.1, r.2.2.2)

/-- LockCollection.release: getLock (creating a fresh entity for an unknown
id), delegate with the default reportNoLocks, then cleanupLock. -/
def release (greed : Bool) (c : LockCollection) (socket : Nat)
    (lockId : String) (nonce : Option String) (o : List Bool) :
    Except JsErr (LockCollection × List Msg × List Bool) :=
  let g := getLock greed c lockId
  match ReaderWriterLock.entityRelease g.2 socket nonce none o with
  | .error err => .error err
  | .ok (e, _, ms, o2) =>
    let c2 := setLock g.1 lockId e
    .ok (cleanupLock c2 e, ms, o2)

/-- The sweep inside LockCollection.releaseAll: release every entity with
the suppress flag, folding the released Booleans with the conditional
assignment (an or), deleting each entity that became abandoned. -/
def releaseAllAux (socket : Nat) (nonce : Option String) :
    List (String × ReaderWriterLock) → List Bool →
    Except JsErr (List (String × ReaderWriterLock) × Bool × List Msg × List Bool)
  | [], o => .ok ([], false, [], o)
  | (id, lk) :: rest, o =>
    match ReaderWriterLock.entityRelease lk socket nonce (some false) o with
    | .error err => .error err
    | .ok (lk2, rel1, ms1, o1) =>
      match releaseAllAux socket nonce rest o1 with
      | .error err => .error err
      | .ok (rest2, rel2, ms2, o2) =>
        .ok ((if lk2.isAbandoned then rest2 else (id, lk2) :: rest2),
          rel1 || rel2, ms1 ++ ms2, o2)

/-- LockCollection.releaseAll(socket, nonce, reportNoLocks): sweep, then
report NOLOCKSTORELEASEALL to the socket when nothing was released and
reporting is on (the default when the argument is not passed). Note the
queues of the entities are never touched here: clearRequestsForSocket has
no caller in this revision. -/
def releaseAll (c : LockCollection) (socket : Nat) (nonce : Option String)
    (reportNoLocksArg : Option Bool) (o : List Bool) :
    Except JsErr (LockCollection × List Msg × List Bool) :=
  let reportNoLocks := reportNoLocksArg.getD true
  match releaseAllAux socket nonce c.locks o with
  | .error err => .error err
  | .ok (locks2, released, ms, o1) =>
    if !released && reportNoLocks then
      let r := emit (some socket) .NOLOCKSTORELEASEALL none none (pushIfDefined [] nonce) o1
      .ok (⟨locks2⟩, ms ++ [r.1], r.2.2)
    else .ok (⟨locks2⟩, ms, o1)

/-- LockInterface.onSocketDisconnect(socket): this.locks.releaseAll(socket),
so nonce is undefined and reportNoLocks takes its default true. -/
def onSocketDisconnect (c : LockCollection) (socket : Nat) (o : List Bool) :
    Except JsErr (LockCollection × List Msg × List Bool) :=
  releaseAll c socket none none o

end LockCollection

/-- Invariant I1 of the spec: no writer and non-empty readers coexisting. -/
def mutexHolds (e : ReaderWriterLock) : Bool :=
  e.writer.isNone || e.readers.isEmpty

/-- A LOCKED W frame whose socket write succeeded, i.e. an actual write
grant (lockWrite sets writer exactly for these). -/
def isDeliveredW (m : Msg) : Bool :=
  m.delivered && m.status == Status.LOCKED && m.mode == some Mode.W

/-- An ACQUIRE X frame with no nonce. -/
def argsX : AcquireArgs := ⟨"X", none, none⟩

/-- An ACQUIRE X frame carrying nonce n1. -/
def argsXn1 : AcquireArgs := ⟨"X", some "n1", none⟩

/-- A fresh non-greedy entity for X with counter and trace at zero. -/
def initStateX : SysState := ⟨ReaderWriterLock.init false "X", 0, [], []⟩

/-- Entity for X whose sole reader is connection 1. -/
def entityReaderX : ReaderWriterLock :=
  ⟨"X", false, none, [], [⟨0, 1, some "X", none⟩], []⟩

/-- Entity for X whose writer is connection 1. -/
def entityWriterX : ReaderWriterLock :=
  ⟨"X", false, some ⟨0, 1, some "X", none⟩, [], [], []⟩

/-- Entity for X with writer connection 1 and a pending write request of
connection 2 (the shape produced by two ACQUIRE X W commands). -/
def entityPendingX : ReaderWriterLock :=
  ⟨"X", false, some ⟨0, 1, some "X", none⟩, [⟨1, 2, none, none⟩], [], []⟩

/-- Registry reached from empty by ACQUIRE X W from connection 1 (granted)
then ACQUIRE X W from connection 2 (queued). -/
def c2Registry : LockCollection :=
  (LockCollection.acquireWrite false
    (LockCollection.acquireWrite false ⟨[]⟩ 1 argsX 0 []).1 2 argsX 1 []).1

/-- Greedy entity just vacated, with two queued readers (connections 2, 3)
and two queued writers (connections 4, 5). -/
def entityAbdX : ReaderWriterLock :=
  ⟨"X", true, none, [⟨2, 4, none, none⟩, ⟨3, 5, none, none⟩], [],
    [⟨0, 2, none, none⟩, ⟨1, 3, none, none⟩]⟩

/-- Claim C3, evaluated on the code: with connection 1 the sole reader of X,
release(1, nonce) raises a TypeError instead of removing the reader and
answering RELEASED R: the readers scan removes nothing because its
predicate lacks a return statement, and the response is then addressed to
this.writer.socket while writer is null. -/
theorem reader_release_typeError :
    ReaderWriterLock.entityRelease entityReaderX 1 (some "rn") none [] =
      .error .typeError := by
  rfl

/-- Claim C5, evaluated on the code: a reader of X re-acquiring read hits
the already-held branch, which reads request.nonce with no request in
scope, a ReferenceError before LOCKED R is written; and the current writer
of X re-acquiring read is not recognized (this.writer === socket compares
the request object against the socket), falls into the queueing branch and
dies on the undeclared name timeout. -/
theorem reacquire_read_referenceError :
    ReaderWriterLock.acquireRead entityReaderX 1 ⟨"X", some "n", none⟩ 7 [] =
        Except.error .referenceError
  ∧ ReaderWriterLock.acquireRead entityWriterX 1 ⟨"X", some "n", none⟩ 7 [] =
        Except.error .referenceError :=
  ⟨rfl, rfl⟩

/-- Claim C6, evaluated on the code: RELEASE of the never-referenced id Y
leaves no entity for Y in the registry (the fresh entity is cleaned up),
but the NOLOCKTORELEASE frame is passed to writeJsonSafe without the
socket argument, so the write fails and is swallowed and no frame reaches
connection 1. -/
theorem unknown_release_no_frame_to_client :
    LockCollection.release false ⟨[]⟩ 1 "Y" (some "n") [] =
      .ok (⟨[]⟩, [⟨none, false, .NOLOCKTORELEASE, some "Y", none, ["n"]⟩], []) := by
  rfl

/-- Claim C7, evaluated on the code: connection 1 holds X write, connection
2 queues ACQUIRE X W with nonce n1, then the deadline fires. The wakeup
does remove the record and emit ACQUIRETIMEOUT to connection 2, but with an
empty nonce array and an undefined lockId: createRequest hands the plain
lockId string to the LockRequest constructor in place of the argument
object, so the queued record never carried the nonce. A wakeup for a
request no longer queued does nothing. -/
theorem queued_timeout_loses_nonce :
    ((runStates initStateX [.acqW 1 argsX, .acqW 2 argsXn1, .timerW 1]).getLastD
        initStateX).trace.any
      (fun m => m.status == .ACQUIRETIMEOUT && m.dest == some 2 &&
        m.nonce.isEmpty && m.lockId == none) = true
  ∧ ((runStates initStateX [.acqW 1 argsX, .acqW 2 argsXn1, .timerW 1]).getLastD
        initStateX).trace.all
      (fun m => !(m.status == .ACQUIRETIMEOUT && m.nonce.contains "n1")) = true
  ∧ ReaderWriterLock.timerFireWrite entityWriterX 99 [] = .ok (entityWriterX, [], []) :=
  ⟨rfl, rfl, rfl⟩

/-- Claim C9, evaluated on the code: a single ACQUIRE X W on a fresh id from
a connection whose socket write fails leaves the registry holding an entity
for X that is abandoned (no writer, no readers, empty queues): lockWrite
rolled the grant back and the acquire path never runs cleanupLock. -/
theorem failed_grant_leaves_abandoned_entity :
    ((LockCollection.acquireWrite false ⟨[]⟩ 1 argsX 0 [false]).1.lookup "X").elim false
      (fun e => e.isAbandoned) = true := by
  rfl

/-- Claim C2, evaluated on the code: from the registry where connection 1
holds X write and connection 2 has a queued write request, processing the
disconnect of connection 2 leaves the request of connection 2 in the
writer queue of X (the disconnect sweep only calls release per entity and
never clears the queues), and even addresses an outbound frame
(NOLOCKSTORELEASEALL) to the disconnected connection 2. -/
theorem disconnect_leaves_queued_request :
    (match LockCollection.onSocketDisconnect c2Registry 2 [] with
      | .ok (c, ms, _) =>
        ((c.lookup "X").elim false (fun e => e.writerQueue.any (fun q => q.socket == 2)))
          && ms.any (fun m => m.dest == some 2)
      | .error _ => false) = true := by
  rfl

/-- Claim C8: a RELEASE by a connection that holds neither the write lock
nor a read grant on the entity (in particular one that only has a pending
queued request there) leaves the entity, and hence both waiter queues,
completely unchanged; the only effect is the (misdirected) NOLOCKTORELEASE
report. -/
theorem release_ignores_pending_request (e : ReaderWriterLock) (socket : Nat)
    (nonce : Option String) (o : List Bool)
    (h1 : e.writerIs socket = false) (h2 : e.isSocketReader socket = false) :
    ReaderWriterLock.entityRelease e socket nonce none o =
      .ok (e, false,
        [⟨none, false, .NOLOCKTORELEASE, some e.lockId, none, pushIfDefined [] nonce⟩], o) := by
  unfold ReaderWriterLock.entityRelease
  cases hw : e.writer with
  | none => simp [h2, emit]
  | some w =>
    have hws : (w.socket == socket) = false := by
      simpa [ReaderWriterLock.writerIs, hw] using h1
    simp [h2, hws, emit]

/-- Witness for C8: connection 2 has only a queued write request on X. -/
theorem release_ignores_pending_request_witness :
    entityPendingX.writerIs 2 = false ∧ entityPendingX.isSocketReader 2 = false ∧
    ReaderWriterLock.entityRelease entityPendingX 2 none none [] =
      .ok (entityPendingX, false,
        [⟨none, false, .NOLOCKTORELEASE, some "X", none, []⟩], []) :=
  ⟨by decide, by decide,
    release_ignores_pending_request entityPendingX 2 none [] (by decide) (by decide)⟩

/-- Claim C10: lockWrite on an entity with no current writer sets writer
exactly when the LOCKED W write was reported successful; on failure the
entity keeps no writer, and in either case lockWrite touches neither
waiter queue, so a request dequeued by the caller is not re-queued and a
failed grant is silently lost. -/
theorem lockWrite_grants_only_on_delivered_write (e : ReaderWriterLock)
    (req : LockRequest) (o : List Bool) (h : e.writer = none) :
    ((ReaderWriterLock.lockWrite e req o).1.writer =
        if (popOracle o).1 then some req else none)
  ∧ (ReaderWriterLock.lockWrite e req o).1.writerQueue = e.writerQueue
  ∧ (ReaderWriterLock.lockWrite e req o).1.readerQueue = e.readerQueue := by
  unfold ReaderWriterLock.lockWrite
  simp only [emit]
  cases hpo : (popOracle o).1 <;> simp [hpo, h]

/-- Witness for C10: a fresh entity, a concrete request, and an oracle that
fails the one write. -/
theorem lockWrite_grants_only_on_delivered_write_witness :
    (ReaderWriterLock.init false "X").writer = none ∧
    (((ReaderWriterLock.lockWrite (ReaderWriterLock.init false "X") ⟨0, 1, some "X", none⟩
        [false]).1.writer = if (popOracle [false]).1 then some ⟨0, 1, some "X", none⟩ else none)
    ∧ (ReaderWriterLock.lockWrite (ReaderWriterLock.init false "X") ⟨0, 1, some "X", none⟩
        [false]).1.writerQueue = (ReaderWriterLock.init false "X").writerQueue
    ∧ (ReaderWriterLock.lockWrite (ReaderWriterLock.init false "X") ⟨0, 1, some "X", none⟩
        [false]).1.readerQueue = (ReaderWriterLock.init false "X").readerQueue) :=
  ⟨rfl, lockWrite_grants_only_on_delivered_write (ReaderWriterLock.init false "X")
    ⟨0, 1, some "X", none⟩ [false] rfl⟩

theorem lockRead_entity (e : ReaderWriterLock) (req : LockRequest) (o : List Bool) :
    (ReaderWriterLock.lockRead e req o).1 = { e with readers := e.readers ++ [req] } :=
  rfl

theorem lockRead_msgs (e : ReaderWriterLock) (req : LockRequest) (o : List Bool) :
    (ReaderWriterLock.lockRead e req o).2.1 =
      [⟨some req.socket, (popOracle o).1, .LOCKED, some e.lockId, some .R,
        pushIfDefined [] req.nonce⟩] :=
  rfl

theorem lockWrite_entity (e : ReaderWriterLock) (req : LockRequest) (o : List Bool) :
    (ReaderWriterLock.lockWrite e req o).1 =
      if (popOracle o).1 then
        { e with readers := removeIfAll (fun r => r.socket == req.socket) e.readers,
                 writer := some req }
      else
        { e with readers := removeIfAll (fun r => r.socket == req.socket) e.readers } := by
  unfold ReaderWriterLock.lockWrite
  simp only [emit]

theorem lockWrite_msgs (e : ReaderWriterLock) (req : LockRequest) (o : List Bool) :
    (ReaderWriterLock.lockWrite e req o).2.1 =
      [⟨some req.socket, (popOracle o).1, .LOCKED, some e.lockId, some .W,
        pushIfDefined [] req.nonce⟩] :=
  rfl

theorem abdicateWriteLoop_stop (fuel : Nat) (e : ReaderWriterLock) (o : List Bool)
    (h : (e.hasWriteRequests && e.isWriteAvailable none) = false) :
    ReaderWriterLock.abdicateWriteLoop fuel e o = (e, [], o) := by
  cases fuel <;> simp [ReaderWriterLock.abdicateWriteLoop, h]

theorem abdicateWriteLoop_of_writeLocked (fuel : Nat) (e : ReaderWriterLock) (o : List Bool)
    (h : e.isWriteLocked = true) :
    ReaderWriterLock.abdicateWriteLoop fuel e o = (e, [], o) :=
  abdicateWriteLoop_stop fuel e o (by simp [ReaderWriterLock.isWriteAvailable, h])

theorem abdicateWriteLoop_of_readLocked (fuel : Nat) (e : ReaderWriterLock) (o : List Bool)
    (h : e.isReadLocked = true) :
    ReaderWriterLock.abdicateWriteLoop fuel e o = (e, [], o) :=
  abdicateWriteLoop_stop fuel e o (by simp [ReaderWriterLock.isWriteAvailable, h])

theorem abdicateReadLoop_msgs_R (fuel : Nat) :
    ∀ (e : ReaderWriterLock) (o : List Bool),
    ((ReaderWriterLock.abdicateReadLoop fuel e o).2.1).all
      (fun m => m.mode == some Mode.R) = true := by
  induction fuel with
  | zero => intro e o; rfl
  | succ n ih =>
    intro e o
    cases hg : (e.hasReadRequests && e.isReadAvailable) with
    | false => simp [ReaderWriterLock.abdicateReadLoop, hg]
    | true =>
      cases hq : e.readerQueue with
      | nil => simp [ReaderWriterLock.abdicateReadLoop, hg, hq]
      | cons r rest =>
        simp [ReaderWriterLock.abdicateReadLoop, hg, hq, List.all_append,
          lockRead_msgs, ih]

theorem abdicateWriteLoop_msgs_W (fuel : Nat) :
    ∀ (e : ReaderWriterLock) (o : List Bool),
    ((ReaderWriterLock.abdicateWriteLoop fuel e o).2.1).all
      (fun m => m.mode == some Mode.W) = true := by
  induction fuel with
  | zero => intro e o; rfl
  | succ n ih =>
    intro e o
    cases hg : (e.hasWriteRequests && e.isWriteAvailable none) with
    | false => simp [ReaderWriterLock.abdicateWriteLoop, hg]
    | true =>
      cases hq : e.writerQueue with
      | nil => simp [ReaderWriterLock.abdicateWriteLoop, hg, hq]
      | cons w rest =>
        simp [ReaderWriterLock.abdicateWriteLoop, hg, hq, List.all_append,
          lockWrite_msgs, ih]

theorem abdicateWriteLoop_countP (fuel : Nat) :
    ∀ (e : ReaderWriterLock) (o : List Bool),
    ((ReaderWriterLock.abdicateWriteLoop fuel e o).2.1).countP isDeliveredW ≤ 1 := by
  induction fuel with
  | zero => intro e o; simp [ReaderWriterLock.abdicateWriteLoop]
  | succ n ih =>
    intro e o
    cases hg : (e.hasWriteRequests && e.isWriteAvailable none) with
    | false => simp [ReaderWriterLock.abdicateWriteLoop, hg]
    | true =>
      cases hq : e.writerQueue with
      | nil => simp [ReaderWriterLock.abdicateWriteLoop, hg, hq]
      | cons w rest =>
        cases hpo : (popOracle o).1 with
        | true =>
          have hlocked :
              ((ReaderWriterLock.lockWrite { e with writerQueue := rest } w o).1).isWriteLocked
                = true := by
            simp [lockWrite_entity, hpo, ReaderWriterLock.isWriteLocked]
          simp [ReaderWriterLock.abdicateWriteLoop, hg, hq,
            abdicateWriteLoop_of_writeLocked n _ _ hlocked, lockWrite_msgs, hpo,
            List.countP_cons, isDeliveredW]
        | false =>
          simp [ReaderWriterLock.abdicateWriteLoop, hg, hq, lockWrite_msgs, hpo,
            List.countP_cons, isDeliveredW]
          exact ih _ _

theorem abdicateReadLoop_drains (fuel : Nat) :
    ∀ (e : ReaderWriterLock) (o : List Bool),
    e.isReadAvailable = true → e.readerQueue.length ≤ fuel →
    (ReaderWriterLock.abdicateReadLoop fuel e o).1.readers = e.readers ++ e.readerQueue
    ∧ (ReaderWriterLock.abdicateReadLoop fuel e o).1.readerQueue = [] := by
  induction fuel with
  | zero =>
    intro e o hA hf
    have hq : e.readerQueue = [] := List.eq_nil_of_length_eq_zero (Nat.le_zero.mp hf)
    simp [ReaderWriterLock.abdicateReadLoop, hq]
  | succ n ih =>
    intro e o hA hf
    cases hq : e.readerQueue with
    | nil =>
      simp [ReaderWriterLock.abdicateReadLoop, ReaderWriterLock.hasReadRequests, hq]
    | cons r rest =>
      have hg : (e.hasReadRequests && e.isReadAvailable) = true := by
        simp [ReaderWriterLock.hasReadRequests, hq, hA]
      have hA2 :
          (ReaderWriterLock.lockRead { e with readerQueue := rest } r o).1.isReadAvailable
            = true := hA
      have hf2 :
          (ReaderWriterLock.lockRead { e with readerQueue := rest } r o).1.readerQueue.length
            ≤ n := by
        have := hf
        simp [hq, lockRead_entity] at this ⊢
        omega
      obtain ⟨ih1, ih2⟩ := ih ((ReaderWriterLock.lockRead { e with readerQueue := rest } r o).1)
        ((ReaderWriterLock.lockRead { e with readerQueue := rest } r o).2.2) hA2 hf2
      rw [lockRead_entity] at ih1 ih2
      simp at ih1 ih2
      refine ⟨?_, ?_⟩
      · simp [ReaderWriterLock.abdicateReadLoop, hg, hq, lockRead_entity, ih1]
      · simp [ReaderWriterLock.abdicateReadLoop, hg, hq, lockRead_entity, ih2]

theorem abdicateWriteLoop_readerQueue (fuel : Nat) :
    ∀ (e : ReaderWriterLock) (o : List Bool),
    (ReaderWriterLock.abdicateWriteLoop fuel e o).1.readerQueue = e.readerQueue := by
  induction fuel with
  | zero => intro e o; rfl
  | succ n ih =>
    intro e o
    cases hg : (e.hasWriteRequests && e.isWriteAvailable none) with
    | false => simp [ReaderWriterLock.abdicateWriteLoop, hg]
    | true =>
      cases hq : e.writerQueue with
      | nil => simp [ReaderWriterLock.abdicateWriteLoop, hg, hq]
      | cons w rest =>
        simp [ReaderWriterLock.abdicateWriteLoop, hg, hq, ih, lockWrite_entity]
        cases (popOracle o).1 <;> simp

theorem abdicateWriteLoop_readers_nil (fuel : Nat) :
    ∀ (e : ReaderWriterLock) (o : List Bool), e.readers = [] →
    (ReaderWriterLock.abdicateWriteLoop fuel e o).1.readers = [] := by
  induction fuel with
  | zero => intro e o h; simpa [ReaderWriterLock.abdicateWriteLoop] using h
  | succ n ih =>
    intro e o h
    cases hg : (e.hasWriteRequests && e.isWriteAvailable none) with
    | false => simpa [ReaderWriterLock.abdicateWriteLoop, hg] using h
    | true =>
      cases hq : e.writerQueue with
      | nil => simpa [ReaderWriterLock.abdicateWriteLoop, hg, hq] using h
      | cons w rest =>
        have hnil :
            (ReaderWriterLock.lockWrite { e with writerQueue := rest } w o).1.readers = [] := by
          simp [lockWrite_entity, removeIfAll, h]
          cases (popOracle o).1 <;> simp [h, removeIfAll]
        simp [ReaderWriterLock.abdicateWriteLoop, hg, hq, ih _ _ hnil]

theorem all_dropWhile_of_all (p q : α → Bool) (l : List α) (h : l.all q = true) :
    (l.dropWhile p).all q = true := by
  induction l with
  | nil => rfl
  | cons x xs ih =>
    rw [List.all_cons, Bool.and_eq_true] at h
    cases hp : p x with
    | true =>
      rw [List.dropWhile_cons, hp]
      simpa using ih h.2
    | false =>
      rw [List.dropWhile_cons, hp]
      simp [List.all_cons, h.1, h.2]

theorem dropWhile_append_of_all (p : α → Bool) (l1 l2 : List α) (h : l1.all p = true) :
    (l1 ++ l2).dropWhile p = l2.dropWhile p := by
  induction l1 with
  | nil => rfl
  | cons x xs ih =>
    rw [List.all_cons, Bool.and_eq_true] at h
    simp [List.dropWhile_cons, h.1, ih h.2]

theorem countP_deliveredW_of_all_R (l : List Msg)
    (h : l.all (fun m => m.mode == some Mode.R) = true) :
    l.countP isDeliveredW = 0 := by
  induction l with
  | nil => rfl
  | cons m ms ih =>
    rw [List.all_cons, Bool.and_eq_true] at h
    have hm : isDeliveredW m = false := by
      have hmm : m.mode = some Mode.R := by
        have := h.1
        simpa [beq_iff_eq] using this
      simp [isDeliveredW, hmm]
    simp [List.countP_cons, hm, ih h.2]

/-- Claim C4: in every abdication cycle, all grant frames to queued readers
precede all grant frames to queued writers, at most one writer grant is
actually delivered (setting writer makes isWriteAvailable false, ending
the writer loop), and when the read side is available the cycle grants
every queued reader. -/
theorem abdication_readers_first_one_writer (e : ReaderWriterLock) (o : List Bool) :
    (((ReaderWriterLock.abdicateLock e o).2.1.dropWhile
        (fun m => m.mode == some Mode.R)).all (fun m => m.mode == some Mode.W) = true)
  ∧ ((ReaderWriterLock.abdicateLock e o).2.1).countP isDeliveredW ≤ 1
  ∧ (e.isReadAvailable = true →
      (ReaderWriterLock.abdicateLock e o).1.readers = e.readers ++ e.readerQueue
      ∧ (ReaderWriterLock.abdicateLock e o).1.readerQueue = []) := by
  have hR := abdicateReadLoop_msgs_R e.readerQueue.length e o
  refine ⟨?_, ?_, ?_⟩
  · unfold ReaderWriterLock.abdicateLock
    simp only []
    rw [dropWhile_append_of_all _ _ _ hR]
    exact all_dropWhile_of_all _ _ _ (abdicateWriteLoop_msgs_W _ _ _)
  · unfold ReaderWriterLock.abdicateLock
    simp only [List.countP_append]
    rw [countP_deliveredW_of_all_R _ hR]
    simpa using abdicateWriteLoop_countP _ _ _
  · intro hA
    obtain ⟨hd1, hd2⟩ := abdicateReadLoop_drains e.readerQueue.length e o hA (Nat.le_refl _)
    unfold ReaderWriterLock.abdicateLock
    simp only []
    cases hre : e.readers ++ e.readerQueue with
    | nil =>
      have hnil : (ReaderWriterLock.abdicateReadLoop e.readerQueue.length e o).1.readers = [] := by
        rw [hd1, hre]
      constructor
      · rw [abdicateWriteLoop_readers_nil _ _ _ hnil]
      · rw [abdicateWriteLoop_readerQueue, hd2]
    | cons a as =>
      have hrl :
          (ReaderWriterLock.abdicateReadLoop e.readerQueue.length e o).1.isReadLocked = true := by
        simp [ReaderWriterLock.isReadLocked, hd1, hre]
      rw [abdicateWriteLoop_of_readLocked _ _ _ hrl]
      exact ⟨hd1.trans hre, hd2⟩

/-- Witness for C4 at a vacated greedy entity with two queued readers and
two queued writers. -/
theorem abdication_readers_first_one_writer_witness :
    entityAbdX.isReadAvailable = true ∧
    ((((ReaderWriterLock.abdicateLock entityAbdX []).2.1.dropWhile
        (fun m => m.mode == some Mode.R)).all (fun m => m.mode == some Mode.W) = true)
    ∧ ((ReaderWriterLock.abdicateLock entityAbdX []).2.1).countP isDeliveredW ≤ 1
    ∧ (entityAbdX.isReadAvailable = true →
        (ReaderWriterLock.abdicateLock entityAbdX []).1.readers =
          entityAbdX.readers ++ entityAbdX.readerQueue
        ∧ (ReaderWriterLock.abdicateLock entityAbdX []).1.readerQueue = [])) :=
  ⟨by decide, abdication_readers_first_one_writer entityAbdX []⟩

theorem writer_none_of_isReadAvailable (e : ReaderWriterLock) (h : e.isReadAvailable = true) :
    e.writer = none := by
  cases hw : e.writer with
  | none => rfl
  | some w =>
    exfalso
    unfold ReaderWriterLock.isReadAvailable at h
    split at h <;> simp [ReaderWriterLock.isWriteLocked, hw] at h

theorem isSocketReader_writerUpdate (e : ReaderWriterLock) (wv : Option LockRequest)
    (s : Nat) :
    ({ e with writer := wv } : ReaderWriterLock).isSocketReader s = e.isSocketReader s :=
  rfl

theorem readers_clear_of_isWriteAvailable (e : ReaderWriterLock) (s : Nat)
    (h : e.isWriteAvailable (some s) = true) :
    removeIfAll (fun r => r.socket == s) e.readers = [] := by
  simp only [ReaderWriterLock.isWriteAvailable] at h
  split at h
  · rename_i hc
    rw [Bool.and_eq_true, Bool.and_eq_true] at hc
    obtain ⟨⟨hwl, hlen⟩, hsr⟩ := hc
    cases hrd : e.readers with
    | nil => simp [removeIfAll]
    | cons a as =>
      cases as with
      | nil =>
        have hsock : (a.socket == s) = true := by
          simpa [ReaderWriterLock.isSocketReader, hrd] using hsr
        simp [removeIfAll, hrd, hsock]
      | cons b bs =>
        exfalso
        rw [hrd] at hlen
        simp at hlen
  · cases hrd : e.readers with
    | nil => simp [removeIfAll]
    | cons a as =>
      exfalso
      simp [ReaderWriterLock.isWriteLocked, ReaderWriterLock.isReadLocked, hrd] at h

theorem abdicateReadLoop_stop (fuel : Nat) (e : ReaderWriterLock) (o : List Bool)
    (h : (e.hasReadRequests && e.isReadAvailable) = false) :
    ReaderWriterLock.abdicateReadLoop fuel e o = (e, [], o) := by
  cases fuel <;> simp [ReaderWriterLock.abdicateReadLoop, h]

theorem abdicateReadLoop_writer (fuel : Nat) :
    ∀ (e : ReaderWriterLock) (o : List Bool),
    (ReaderWriterLock.abdicateReadLoop fuel e o).1.writer = e.writer := by
  induction fuel with
  | zero => intro e o; rfl
  | succ n ih =>
    intro e o
    cases hg : (e.hasReadRequests && e.isReadAvailable) with
    | false => simp [ReaderWriterLock.abdicateReadLoop, hg]
    | true =>
      cases hq : e.readerQueue with
      | nil => simp [ReaderWriterLock.abdicateReadLoop, hg, hq]
      | cons r rest =>
        simp [ReaderWriterLock.abdicateReadLoop, hg, hq, lockRead_entity, ih]

theorem mutexHolds_abdicateReadLoop (fuel : Nat) (e : ReaderWriterLock) (o : List Bool)
    (h : mutexHolds e = true) :
    mutexHolds (ReaderWriterLock.abdicateReadLoop fuel e o).1 = true := by
  cases hw : e.writer with
  | none =>
    have hres : (ReaderWriterLock.abdicateReadLoop fuel e o).1.writer = none := by
      rw [abdicateReadLoop_writer, hw]
    simp [mutexHolds, hres]
  | some w =>
    have hg : (e.hasReadRequests && e.isReadAvailable) = false := by
      simp [ReaderWriterLock.isReadAvailable, ReaderWriterLock.isWriteLocked, hw]
    rw [abdicateReadLoop_stop fuel e o hg]
    exact h

theorem mutexHolds_abdicateWriteLoop (fuel : Nat) (e : ReaderWriterLock) (o : List Bool)
    (h : mutexHolds e = true) :
    mutexHolds (ReaderWriterLock.abdicateWriteLoop fuel e o).1 = true := by
  cases hrd : e.readers with
  | nil =>
    have hres : (ReaderWriterLock.abdicateWriteLoop fuel e o).1.readers = [] :=
      abdicateWriteLoop_readers_nil fuel e o hrd
    simp [mutexHolds, hres]
  | cons a as =>
    have hrl : e.isReadLocked = true := by
      simp [ReaderWriterLock.isReadLocked, hrd]
    rw [abdicateWriteLoop_of_readLocked fuel e o hrl]
    exact h

theorem mutexHolds_abdicateLock (e : ReaderWriterLock) (o : List Bool)
    (h : mutexHolds e = true) :
    mutexHolds (ReaderWriterLock.abdicateLock e o).1 = true := by
  exact mutexHolds_abdicateWriteLoop
    ((ReaderWriterLock.abdicateReadLoop e.readerQueue.length e o).1.writerQueue.length)
    ((ReaderWriterLock.abdicateReadLoop e.readerQueue.length e o).1)
    ((ReaderWriterLock.abdicateReadLoop e.readerQueue.length e o).2.2)
    (mutexHolds_abdicateReadLoop e.readerQueue.length e o h)

theorem mutexHolds_acquireRead (e : ReaderWriterLock) (socket : Nat) (args : AcquireArgs)
    (n : Nat) (o : List Bool) (res : ReaderWriterLock × Nat × List Msg × List Bool)
    (hok : ReaderWriterLock.acquireRead e socket args n o = .ok res) :
    mutexHolds res.1 = true := by
  unfold ReaderWriterLock.acquireRead at hok
  split at hok
  · exact Except.noConfusion hok
  · split at hok
    · rename_i h1 hav
      have hw : e.writer = none := writer_none_of_isReadAvailable e hav
      injection hok with hr
      subst hr
      simp [lockRead_entity, mutexHolds, hw]
    · exact Except.noConfusion hok

theorem mutexHolds_acquireWrite (e : ReaderWriterLock) (socket : Nat) (args : AcquireArgs)
    (n : Nat) (o : List Bool) (h : mutexHolds e = true) :
    mutexHolds (ReaderWriterLock.acquireWrite e socket args n o).1 = true := by
  unfold ReaderWriterLock.acquireWrite
  split
  · exact h
  · split
    · rename_i h1 hav
      have hre : removeIfAll
          (fun r => r.socket == (LockRequest.ofArgs n socket args).socket) e.readers = [] :=
        readers_clear_of_isWriteAvailable e socket hav
      show mutexHolds (ReaderWriterLock.lockWrite e (LockRequest.ofArgs n socket args) o).1 = true
      rw [lockWrite_entity]
      cases hpo : (popOracle o).1 <;> simp [mutexHolds, hre]
    · exact h

theorem mutexHolds_entityRelease (e : ReaderWriterLock) (socket : Nat)
    (nonce : Option String) (rnl : Option Bool) (o : List Bool)
    (res : ReaderWriterLock × Bool × List Msg × List Bool)
    (h : mutexHolds e = true)
    (hok : ReaderWriterLock.entityRelease e socket nonce rnl o = .ok res) :
    mutexHolds res.1 = true := by
  cases hw : e.writer with
  | none =>
    cases hsr : e.isSocketReader socket with
    | true =>
      simp [ReaderWriterLock.entityRelease, hw, hsr, isSocketReader_writerUpdate] at hok
    | false =>
      cases hrnl : rnl.getD true with
      | true =>
        simp [ReaderWriterLock.entityRelease, hw, hsr, hrnl,
          isSocketReader_writerUpdate] at hok
        subst hok
        exact h
      | false =>
        simp [ReaderWriterLock.entityRelease, hw, hsr, hrnl,
          isSocketReader_writerUpdate] at hok
        subst hok
        exact mutexHolds_abdicateLock e o h
  | some w =>
    cases hws : w.socket == socket with
    | true =>
      cases hsr : e.isSocketReader socket with
      | true =>
        simp [ReaderWriterLock.entityRelease, hw, hws, hsr,
          isSocketReader_writerUpdate] at hok
      | false =>
        simp [ReaderWriterLock.entityRelease, hw, hws, hsr,
          isSocketReader_writerUpdate] at hok
        subst hok
        exact mutexHolds_abdicateLock _ _ (by simp [mutexHolds])
    | false =>
      cases hsr : e.isSocketReader socket with
      | true =>
        exfalso
        have hemp : e.readers.isEmpty = true := by
          simpa [mutexHolds, hw] using h
        have hnil : e.readers = [] := by
          cases hrd : e.readers with
          | nil => rfl
          | cons a as => rw [hrd] at hemp; simp [List.isEmpty] at hemp
        rw [ReaderWriterLock.isSocketReader, hnil] at hsr
        simp at hsr
      | false =>
        cases hrnl : rnl.getD true with
        | true =>
          simp [ReaderWriterLock.entityRelease, hw, hws, hsr, hrnl,
            isSocketReader_writerUpdate] at hok
          subst hok
          exact h
        | false =>
          simp [ReaderWriterLock.entityRelease, hw, hws, hsr, hrnl,
            isSocketReader_writerUpdate] at hok
          subst hok
          exact mutexHolds_abdicateLock e o h

theorem mutexHolds_timerFireWrite (e : ReaderWriterLock) (rid : Nat) (o : List Bool)
    (res : ReaderWriterLock × List Msg × List Bool) (h : mutexHolds e = true)
    (hok : ReaderWriterLock.timerFireWrite e rid o = .ok res) :
    mutexHolds res.1 = true := by
  cases hfr : findAndRemoveIf (fun q => q.rid == rid) e.writerQueue with
  | mk fr1 fr2 =>
    cases fr1 with
    | none =>
      simp [ReaderWriterLock.timerFireWrite, hfr] at hok
      subst hok
      exact h
    | some req =>
      cases hav : ({ e with writerQueue := fr2 } : ReaderWriterLock).isWriteAvailable none with
      | true => simp [ReaderWriterLock.timerFireWrite, hfr, hav] at hok
      | false =>
        simp [ReaderWriterLock.timerFireWrite, hfr, hav] at hok
        subst hok
        exact h

theorem mutexHolds_timerFireRead (e : ReaderWriterLock) (rid : Nat) (o : List Bool)
    (res : ReaderWriterLock × List Msg × List Bool) (h : mutexHolds e = true)
    (hok : ReaderWriterLock.timerFireRead e rid o = .ok res) :
    mutexHolds res.1 = true := by
  cases hfr : findAndRemoveIf (fun q => q.rid == rid) e.readerQueue with
  | mk fr1 fr2 =>
    cases fr1 with
    | none =>
      simp [ReaderWriterLock.timerFireRead, hfr] at hok
      subst hok
      exact h
    | some req =>
      cases hav : ({ e with readerQueue := fr2 } : ReaderWriterLock).isReadAvailable with
      | true => simp [ReaderWriterLock.timerFireRead, hfr, hav] at hok
      | false =>
        simp [ReaderWriterLock.timerFireRead, hfr, hav] at hok
        subst hok
        exact h

theorem mutexHolds_step (s s2 : SysState) (ev : Ev) (h : mutexHolds s.entity = true)
    (hs : step s ev = some s2) : mutexHolds s2.entity = true := by
  cases ev with
  | acqR socket args =>
    cases hh : ReaderWriterLock.acquireRead s.entity socket args s.nextRid s.oracle with
    | error err => simp [step, hh] at hs
    | ok r =>
      obtain ⟨e2, n2, ms2, o2⟩ := r
      simp [step, hh] at hs
      subst hs
      exact mutexHolds_acquireRead s.entity socket args s.nextRid s.oracle _ hh
  | acqW socket args =>
    cases hh : ReaderWriterLock.acquireWrite s.entity socket args s.nextRid s.oracle with
    | mk e2 r2 =>
      obtain ⟨n2, ms2, o2⟩ := r2
      simp [step, hh] at hs
      subst hs
      have hmx := mutexHolds_acquireWrite s.entity socket args s.nextRid s.oracle h
      rw [hh] at hmx
      exact hmx
  | rel socket nonce =>
    cases hh : ReaderWriterLock.entityRelease s.entity socket nonce none s.oracle with
    | error err => simp [step, hh] at hs
    | ok r =>
      obtain ⟨e2, b2, ms2, o2⟩ := r
      simp [step, hh] at hs
      subst hs
      exact mutexHolds_entityRelease s.entity socket nonce none s.oracle _ h hh
  | disc socket =>
    cases hh : ReaderWriterLock.entityRelease s.entity socket none (some false) s.oracle with
    | error err => simp [step, hh] at hs
    | ok r =>
      obtain ⟨e2, b2, ms2, o2⟩ := r
      simp [step, hh] at hs
      subst hs
      exact mutexHolds_entityRelease s.entity socket none (some false) s.oracle _ h hh
  | timerR rid =>
    cases hh : ReaderWriterLock.timerFireRead s.entity rid s.oracle with
    | error err => simp [step, hh] at hs
    | ok r =>
      obtain ⟨e2, ms2, o2⟩ := r
      simp [step, hh] at hs
      subst hs
      exact mutexHolds_timerFireRead s.entity rid s.oracle _ h hh
  | timerW rid =>
    cases hh : ReaderWriterLock.timerFireWrite s.entity rid s.oracle with
    | error err => simp [step, hh] at hs
    | ok r =>
      obtain ⟨e2, ms2, o2⟩ := r
      simp [step, hh] at hs
      subst hs
      exact mutexHolds_timerFireWrite s.entity rid s.oracle _ h hh

/-- Claim C1: along every event sequence processed against a lock entity
whose state satisfies the mutual-exclusion invariant, every observable
state between commands still satisfies it: a present writer and a
non-empty readers set never coexist. -/
theorem mutex_invariant_all_runs (s0 : SysState) (h : mutexHolds s0.entity = true)
    (evs : List Ev) :
    (runStates s0 evs).all (fun s => mutexHolds s.entity) = true := by
  induction evs generalizing s0 with
  | nil => rfl
  | cons ev evs ih =>
    unfold runStates
    cases hs : step s0 ev with
    | none => rfl
    | some s2 =>
      have h2 := mutexHolds_step s0 s2 ev h hs
      simp only [List.all_cons, h2, Bool.true_and]
      exact ih s2 h2

/-- Witness for C1: a fresh entity for X, two write acquires and a release
processed in order. -/
theorem mutex_invariant_all_runs_witness :
    mutexHolds initStateX.entity = true ∧
    (runStates initStateX [Ev.acqW 1 argsX, Ev.acqW 2 argsX, Ev.rel 1 none]).all
      (fun s => mutexHolds s.entity) = true :=
  ⟨by decide, mutex_invariant_all_runs initStateX (by decide)
    [Ev.acqW 1 argsX, Ev.acqW 2 argsX, Ev.rel 1 none]⟩

end Blockd
